import Mathlib

/-!
Verification of the BurnCloud GCP passthrough proxy (src/main.py).

The development shallowly embeds the three pieces of the program that the
properties below are about:

* the JSON round trip performed on request and response bodies
  (Python's json module and fastapi's JSONResponse rendering), modelled
  by JVal, loads and dumps;
* verify_api_key together with the static VALID_API_KEYS table;
* GoogleAuthManager (init and get_token), with the external
  google-auth refresh round trip as an explicit parameter;
* the proxy_vertex_predict endpoint, with the httpx POST to Google as an
  explicit parameter, recording which stages ran and whether the
  upstream call was issued.
-/

/-! ## JSON values (model of Python json payloads) -/

/-- Model of a decoded JSON value as produced by Python's json module,
restricted to the fragment used here: null, booleans, integer numbers,
strings without escape sequences, arrays and objects. -/
inductive JVal where
  | jnull
  | jbool (b : Bool)
  | jnum (n : Int)
  | jstr (s : String)
  | jarr (xs : List JVal)
  | jobj (kvs : List (String × JVal))

mutual

/-- Model of json.dumps with compact separators, which is how
fastapi.responses.JSONResponse renders its content. -/
def dumps : JVal → String
  | .jnull => "null"
  | .jbool true => "true"
  | .jbool false => "false"
  | .jnum n => toString n
  | .jstr s => "\"" ++ s ++ "\""
  | .jarr xs => "[" ++ dumpsList xs ++ "]"
  | .jobj kvs => "\x7b" ++ dumpsObj kvs ++ "\x7d"

/-- Comma-separated rendering of array elements. -/
def dumpsList : List JVal → String
  | [] => ""
  | [x] => dumps x
  | x :: y :: xs => dumps x ++ "," ++ dumpsList (y :: xs)

/-- Comma-separated rendering of object members. -/
def dumpsObj : List (String × JVal) → String
  | [] => ""
  | [(k, v)] => "\"" ++ k ++ "\":" ++ dumps v
  | (k, v) :: y :: xs => "\"" ++ k ++ "\":" ++ dumps v ++ "," ++ dumpsObj (y :: xs)

end

/-- JSON insignificant whitespace. -/
def isJsonWs (c : Char) : Bool := c = ' ' || c = '\n' || c = '\t' || c = '\r'

/-- Drop leading JSON whitespace. -/
def skipWs : List Char → List Char
  | [] => []
  | c :: cs => if isJsonWs c then skipWs cs else c :: cs

/-- Consume an expected literal tail, returning the rest of the input. -/
def stripLit : List Char → List Char → Option (List Char)
  | [], cs => some cs
  | _ :: _, [] => none
  | l :: ls, c :: cs => if c = l then stripLit ls cs else none

/-- Longest leading run of decimal digits. -/
def takeDigits : List Char → List Char × List Char
  | [] => ([], [])
  | c :: cs =>
    if c.isDigit then
      let p := takeDigits cs
      (c :: p.1, p.2)
    else ([], c :: cs)

/-- Numeric value of a digit run. -/
def digitsVal (ds : List Char) : Nat :=
  ds.foldl (fun a c => a * 10 + (c.toNat - 48)) 0

/-- Content of a JSON string up to the closing quote (escape sequences are
outside the modelled fragment and rejected). -/
def takeStrChars : List Char → Option (List Char × List Char)
  | [] => none
  | c :: cs =>
    if c = '"' then some ([], cs)
    else if c = '\\' then none
    else
      match takeStrChars cs with
      | some (s, r) => some (c :: s, r)
      | none => none

/-- Opening brace character. -/
def lbrace : Char := Char.ofNat 123

/-- Closing brace character. -/
def rbrace : Char := Char.ofNat 125

mutual

/-- Fueled recursive-descent parser for one JSON value, returning the value
and the remaining input; none models json.JSONDecodeError. -/
def parseVal : Nat → List Char → Option (JVal × List Char)
  | 0, _ => none
  | fuel + 1, cs =>
    match skipWs cs with
    | [] => none
    | c :: rest =>
      if c = 'n' then
        match stripLit ("ull").data rest with
        | some r => some (.jnull, r)
        | none => none
      else if c = 't' then
        match stripLit ("rue").data rest with
        | some r => some (.jbool true, r)
        | none => none
      else if c = 'f' then
        match stripLit ("alse").data rest with
        | some r => some (.jbool false, r)
        | none => none
      else if c = '"' then
        match takeStrChars rest with
        | some (s, r) => some (.jstr (String.mk s), r)
        | none => none
      else if c = '[' then
        match skipWs rest with
        | ']' :: r => some (.jarr [], r)
        | r => match parseElems fuel r with
               | some (vs, r2) => some (.jarr vs, r2)
               | none => none
      else if c = lbrace then
        match skipWs rest with
        | [] => none
        | d :: r =>
          if d = rbrace then some (.jobj [], r)
          else
            match parseMembers fuel (d :: r) with
            | some (kvs, r2) => some (.jobj kvs, r2)
            | none => none
      else if c = '-' then
        match takeDigits rest with
        | ([], _) => none
        | (ds, r) => some (.jnum (-(digitsVal ds : Int)), r)
      else if c.isDigit then
        let p := takeDigits (c :: rest)
        some (.jnum (digitsVal p.1), p.2)
      else none

/-- Comma-separated JSON array elements up to the closing bracket. -/
def parseElems : Nat → List Char → Option (List JVal × List Char)
  | 0, _ => none
  | fuel + 1, cs =>
    match parseVal fuel cs with
    | none => none
    | some (v, rest) =>
      match skipWs rest with
      | ',' :: r =>
        match parseElems fuel r with
        | some (vs, r2) => some (v :: vs, r2)
        | none => none
      | ']' :: r => some ([v], r)
      | _ => none

/-- Comma-separated JSON object members up to the closing brace. -/
def parseMembers : Nat → List Char → Option (List (String × JVal) × List Char)
  | 0, _ => none
  | fuel + 1, cs =>
    match skipWs cs with
    | '"' :: rest =>
      match takeStrChars rest with
      | none => none
      | some (k, r1) =>
        match skipWs r1 with
        | ':' :: r2 =>
          match parseVal fuel r2 with
          | none => none
          | some (v, r3) =>
            match skipWs r3 with
            | ',' :: r4 =>
              match parseMembers fuel r4 with
              | some (kvs, r5) => some ((String.mk k, v) :: kvs, r5)
              | none => none
            | e :: r4 => if e = rbrace then some ([(String.mk k, v)], r4) else none
            | [] => none
        | _ => none
    | _ => none

end

/-- Model of json.loads on the modelled fragment: the whole input must be one
JSON value surrounded by optional whitespace; none models JSONDecodeError. -/
def loads (s : String) : Option JVal :=
  match parseVal (s.length + 1) s.data with
  | some (v, rest) => if skipWs rest = [] then some v else none
  | none => none

/-! ## Python string primitives used by verify_api_key -/

/-- Model of Python str.startswith: character-prefix test. -/
def startswith (s p : String) : Bool := p.data.isPrefixOf s.data

/-- Model of Python str.split(" "): split at every single space character,
keeping empty segments. -/
def splitSpace : List Char → List (List Char)
  | [] => [[]]
  | c :: cs =>
    if c = ' ' then [] :: splitSpace cs
    else
      match splitSpace cs with
      | [] => [[c]]
      | g :: gs => (c :: g) :: gs

/-! ## The static key table and verify_api_key -/

/-- Value type of the VALID_API_KEYS table entries. -/
structure KeyInfo where
  name : String
  active : Bool
deriving DecidableEq

/-- The static API key table VALID_API_KEYS of main.py. -/
def VALID_API_KEYS : List (String × KeyInfo) :=
  [("sk-client-veo-001", ⟨"VIP Client A", true⟩),
   ("sk-burncloud-admin", ⟨"Admin Test", true⟩)]

/-- Result of the verify_api_key dependency: either an HTTPException with its
status and detail, or the accepted caller key. -/
inductive AuthResult where
  | httpError (status : Nat) (detail : String)
  | ok (apiKey : String)
deriving DecidableEq

/-- The source's api_key extraction: the second space-separated field of the
Authorization header. -/
def extractKey (h : String) : String :=
  String.mk ((splitSpace h.data).getD 1 [])

/-- Embedding of verify_api_key, generalized over the identity table (the
source reads the module-level VALID_API_KEYS; the spec asks for the table as
an explicit dependency). The Authorization header is optional: none models an
absent header, and the empty string is rejected by the same branch, matching
the falsy check in the source. The caller key is the second space-separated
field of the header, as in the source's split. -/
def verify_api_key_with (table : List (String × KeyInfo))
    (authHeader : Option String) : AuthResult :=
  match authHeader with
  | none => .httpError 401 "Missing or invalid Authorization header"
  | some h =>
    if startswith h "Bearer " = false then
      .httpError 401 "Missing or invalid Authorization header"
    else
      match table.lookup (extractKey h) with
      | none => .httpError 401 "Invalid API Key"
      | some info =>
        if info.active = false then .httpError 403 "API Key is inactive"
        else .ok (extractKey h)

/-- verify_api_key as the source uses it, against the shipped table. -/
def verify_api_key (authHeader : Option String) : AuthResult :=
  verify_api_key_with VALID_API_KEYS authHeader

/-! ## GoogleAuthManager -/

/-- Model of the google.oauth2 service-account Credentials object as read by
get_token: its valid and expired attributes and the token it stores. -/
structure Creds where
  valid : Bool
  expired : Bool
  token : String
deriving DecidableEq

/-- The auth manager state: the credentials loaded at init, or none when the
key file was absent (degraded state). -/
structure AuthManager where
  creds : Option Creds
deriving DecidableEq

/-- The two ways get_token fails: the RuntimeError raised when credentials
were never initialized, and an exception escaping the refresh round trip. -/
inductive TokenError where
  | credentialsUnavailable
  | refreshFailed
deriving DecidableEq

/-- Result of one get_token call. -/
inductive TokenResult where
  | token (t : String)
  | error (e : TokenError)
deriving DecidableEq

/-- Outcome of one get_token call: its result, the manager state afterwards,
and how many refresh round trips to the identity provider it performed. -/
structure TokenOutcome where
  result : TokenResult
  manager : AuthManager
  refreshCalls : Nat
deriving DecidableEq

/-- Embedding of GoogleAuthManager.get_token. The outcome of the external
refresh round trip (google-auth Credentials.refresh) is a parameter: some c2
models a successful refresh installing credentials state c2, none models
refresh raising, which leaves the stored credentials unchanged. -/
def get_token (m : AuthManager) (refreshOutcome : Option Creds) : TokenOutcome :=
  match m.creds with
  | none => ⟨.error .credentialsUnavailable, m, 0⟩
  | some c =>
    if c.valid = false then
      match refreshOutcome with
      | some c2 => ⟨.token c2.token, ⟨some c2⟩, 1⟩
      | none => ⟨.error .refreshFailed, ⟨some c⟩, 1⟩
    else if c.expired = true then
      match refreshOutcome with
      | some c2 => ⟨.token c2.token, ⟨some c2⟩, 1⟩
      | none => ⟨.error .refreshFailed, ⟨some c⟩, 1⟩
    else ⟨.token c.token, ⟨some c⟩, 0⟩

/-- Embedding of GoogleAuthManager.__init__: when the key file does not exist
the manager only logs a warning and keeps creds = none; otherwise it stores
the credentials loaded from the file. -/
def initGoogleAuthManager (keyFileExists : Bool) (loaded : Creds) : AuthManager :=
  if keyFileExists then ⟨some loaded⟩ else ⟨none⟩

/-- N get_token calls in sequence, returning the final manager state and the
total number of refresh round trips. get_token contains no await point, so
under the single-threaded asyncio event loop running the async handlers,
concurrent callers execute it atomically one after another: a sequence of
calls is the faithful interleaving model of N concurrent callers. The refresh
outcome is the same environment for every call. -/
def runGetTokenN (m : AuthManager) (refreshOutcome : Option Creds) :
    Nat → AuthManager × Nat
  | 0 => (m, 0)
  | n + 1 =>
    let o := get_token m refreshOutcome
    let p := runGetTokenN o.manager refreshOutcome n
    (p.1, o.refreshCalls + p.2)

/-! ## The proxy endpoint -/

/-- Configuration read at startup: GCP_REGION and GCP_PROJECT_ID. -/
structure ProxyConfig where
  region : String
  projectId : String
deriving DecidableEq

/-- Defaults from the configuration block of main.py. -/
def defaultConfig : ProxyConfig := ⟨"us-central1", "your-project-id"⟩

/-- Embedding of the google_url construction in proxy_vertex_predict. -/
def buildGoogleUrl (cfg : ProxyConfig) (modelName : String) : String :=
  "https://" ++ cfg.region ++ "-aiplatform.googleapis.com/v1/projects/" ++
    cfg.projectId ++ "/locations/" ++ cfg.region ++
    "/publishers/google/models/" ++ modelName ++ ":predict"

/-- What the POST to Google produces: an httpx.RequestError, or an HTTP
response with its status code and raw body bytes. -/
inductive UpstreamResult where
  | requestError (msg : String)
  | response (status : Nat) (body : String)
deriving DecidableEq

/-- The stages of the endpoint, in the order the claims discuss them. -/
inductive Stage where
  | auth
  | parseBody
  | buildTarget
  | fetchToken
  | forward
  | relay
deriving DecidableEq

/-- What the client receives: an HTTPException rendered by FastAPI, the
JSONResponse passthrough, or an exception escaping the handler (no response
built by the handler at all). -/
inductive HandlerResult where
  | httpError (status : Nat) (detail : String)
  | jsonResponse (status : Nat) (body : String)
  | unhandledError
deriving DecidableEq

/-- Outcome of one request: the client-visible result, the auth-manager state
afterwards, whether the POST to Google was issued, how many identity-provider
refresh round trips ran, and which stages were reached, in order. -/
structure HandlerOutcome where
  result : HandlerResult
  manager : AuthManager
  upstreamCalled : Bool
  refreshCalls : Nat
  trace : List Stage
deriving DecidableEq

/-- Embedding of proxy_vertex_predict, with the verify_api_key dependency
resolved first as FastAPI does. External effects are parameters: rawBody is
the request body bytes, refreshOutcome the identity-provider round trip, and
upstream the Google endpoint as a function of the url, the serialized
payload, and the bearer token. The source parses the body, builds the Google
url, fetches the token, posts, and then relays the response through
response.json(); a response body that fails to parse makes response.json()
raise, so the handler ends in unhandledError rather than a passthrough. -/
def proxy_vertex_predict (cfg : ProxyConfig) (modelName : String)
    (authHeader : Option String) (rawBody : String)
    (m : AuthManager) (refreshOutcome : Option Creds)
    (upstream : String → String → String → UpstreamResult) : HandlerOutcome :=
  match verify_api_key authHeader with
  | .httpError s d => ⟨.httpError s d, m, false, 0, [.auth]⟩
  | .ok _ =>
    match loads rawBody with
    | none => ⟨.httpError 400 "Invalid JSON body", m, false, 0, [.auth, .parseBody]⟩
    | some payload =>
      let url := buildGoogleUrl cfg modelName
      let tk := get_token m refreshOutcome
      match tk.result with
      | .error _ =>
        ⟨.httpError 500 "Internal Server Error: GCP Auth Failed", tk.manager,
          false, tk.refreshCalls, [.auth, .parseBody, .buildTarget, .fetchToken]⟩
      | .token gcpToken =>
        match upstream url (dumps payload) gcpToken with
        | .requestError msg =>
          ⟨.httpError 502 ("Upstream connection failed: " ++ msg), tk.manager,
            true, tk.refreshCalls,
            [.auth, .parseBody, .buildTarget, .fetchToken, .forward]⟩
        | .response status body =>
          match loads body with
          | none =>
            ⟨.unhandledError, tk.manager, true, tk.refreshCalls,
              [.auth, .parseBody, .buildTarget, .fetchToken, .forward, .relay]⟩
          | some v =>
            ⟨.jsonResponse status (dumps v), tk.manager, true, tk.refreshCalls,
              [.auth, .parseBody, .buildTarget, .fetchToken, .forward, .relay]⟩

/-- A stub upstream used by concrete instantiations: always answers 200 with
body null. -/
def stubUpstream : String → String → String → UpstreamResult :=
  fun _ _ _ => .response 200 "null"

/-! ## Helper lemmas -/

/-- Splitting a list with no space yields the single segment. -/
theorem splitSpace_no_space (l : List Char) (h : ' ' ∉ l) : splitSpace l = [l] := by
  induction l with
  | nil => rfl
  | cons c cs ih =>
    have hc : ¬ c = ' ' := fun he => h (he ▸ List.mem_cons_self c cs)
    have hcs : ' ' ∉ cs := fun hm => h (List.mem_cons_of_mem c hm)
    simp only [splitSpace, if_neg hc, ih hcs]

/-- A header built as Bearer plus a key passes the startswith check. -/
theorem startswith_bearer (key : String) :
    startswith ("Bearer " ++ key) "Bearer " = true := by
  have hd : ("Bearer " ++ key).data = "Bearer ".data ++ key.data :=
    String.data_append ..
  simp [startswith, hd, List.isPrefixOf_iff_prefix]

/-- Splitting a Bearer header at spaces: the scheme, then the key fields. -/
theorem splitSpace_bearer (key : String) :
    splitSpace ("Bearer " ++ key).data = "Bearer".data :: splitSpace key.data := by
  have hd : ("Bearer " ++ key).data = "Bearer ".data ++ key.data :=
    String.data_append ..
  rw [hd]
  simp [splitSpace]

/-- Rebuilding a string from its characters is the identity. -/
theorem mk_data (s : String) : String.mk s.data = s := by cases s; rfl

/-- In the shipped table every looked-up entry is active. -/
theorem lookup_shipped_active (k : String) (info : KeyInfo)
    (h : VALID_API_KEYS.lookup k = some info) : info.active = true := by
  simp only [VALID_API_KEYS, List.lookup] at h
  split at h
  · cases h; rfl
  · split at h
    · cases h; rfl
    · cases h

/-- The source's key extraction recovers the key of a Bearer header whose key
has no internal space. -/
theorem extractKey_bearer (key : String) (hkey : ' ' ∉ key.data) :
    extractKey ("Bearer " ++ key) = key := by
  unfold extractKey
  rw [splitSpace_bearer, splitSpace_no_space key.data hkey]
  exact mk_data key

/-! ## The claims -/

/-- C6: verify_api_key maps authentication failures as the spec states, for
any identity table and inbound request: an absent Authorization header, or one
that does not start with the Bearer scheme, yields 401 MissingAuth; a header
Bearer key whose key (a single space-free field) is not in the table yields
401 InvalidKey; a key present but inactive yields 403 InactiveKey; an active
key is accepted and the caller key returned. -/
theorem verify_api_key_mapping (table : List (String × KeyInfo)) (key : String)
    (info : KeyInfo) (hkey : ' ' ∉ key.data) :
    (verify_api_key_with table none
        = .httpError 401 "Missing or invalid Authorization header")
  ∧ (∀ h : String, startswith h "Bearer " = false →
      verify_api_key_with table (some h)
        = .httpError 401 "Missing or invalid Authorization header")
  ∧ (table.lookup key = none →
      verify_api_key_with table (some ("Bearer " ++ key))
        = .httpError 401 "Invalid API Key")
  ∧ (table.lookup key = some info → info.active = false →
      verify_api_key_with table (some ("Bearer " ++ key))
        = .httpError 403 "API Key is inactive")
  ∧ (table.lookup key = some info → info.active = true →
      verify_api_key_with table (some ("Bearer " ++ key)) = .ok key) := by
  have hext := extractKey_bearer key hkey
  have hsw := startswith_bearer key
  refine ⟨rfl, ?_, ?_, ?_, ?_⟩
  · intro h hh
    simp [verify_api_key_with, hh]
  · intro hl
    simp [verify_api_key_with, hsw, hext, hl]
  · intro hl ha
    simp [verify_api_key_with, hsw, hext, hl, ha]
  · intro hl ha
    simp [verify_api_key_with, hsw, hext, hl, ha]

/-- Witness for C6: a concrete table with an inactive key exercises the 403
branch at a concrete header. -/
theorem verify_api_key_mapping_witness :
    verify_api_key_with [("sk-test", ⟨"T", false⟩)] (some ("Bearer sk-test"))
      = .httpError 403 "API Key is inactive" :=
  (verify_api_key_mapping [("sk-test", ⟨"T", false⟩)] "sk-test" ⟨"T", false⟩
      (by decide)).2.2.2.1 rfl rfl

/-- C10: with the shipped VALID_API_KEYS table every entry is active, so the
403 InactiveKey branch of verify_api_key is unreachable: for every possible
request, verify_api_key either returns the caller key or fails with 401. -/
theorem verify_api_key_inactive_unreachable (h : Option String) :
    (∃ k, verify_api_key h = .ok k) ∨ (∃ d, verify_api_key h = .httpError 401 d) := by
  cases h with
  | none => exact Or.inr ⟨_, rfl⟩
  | some s =>
    by_cases hb : startswith s "Bearer " = false
    · exact Or.inr ⟨"Missing or invalid Authorization header",
        by simp [verify_api_key, verify_api_key_with, hb]⟩
    · rcases hl : VALID_API_KEYS.lookup (extractKey s) with _ | info
      · exact Or.inr ⟨"Invalid API Key",
          by simp [verify_api_key, verify_api_key_with, hb, hl]⟩
      · have ha := lookup_shipped_active _ _ hl
        exact Or.inl ⟨extractKey s,
          by simp [verify_api_key, verify_api_key_with, hb, hl, ha]⟩

/-- C5: get_token returns the cached token, leaving the manager unchanged and
performing no refresh round trip, exactly when the stored credentials are
valid and unexpired; when they are invalid or expired it performs a refresh
round trip. -/
theorem get_token_cached_read (c : Creds) (r : Option Creds) :
    (c.valid = true → c.expired = false →
      get_token ⟨some c⟩ r = ⟨.token c.token, ⟨some c⟩, 0⟩)
  ∧ ((get_token ⟨some c⟩ r).refreshCalls
      = if c.valid && !c.expired then 0 else 1) := by
  constructor
  · intro hv he
    simp [get_token, hv, he]
  · rcases c with ⟨v, e, t⟩
    cases v <;> cases e <;> cases r <;> simp [get_token]

/-- Witness for C5: a valid unexpired cached token is returned as is, with no
refresh round trip. -/
theorem get_token_cached_read_witness :
    get_token ⟨some ⟨true, false, "tok"⟩⟩ none
      = ⟨.token "tok", ⟨some ⟨true, false, "tok"⟩⟩, 0⟩ :=
  (get_token_cached_read ⟨true, false, "tok"⟩ none).1 rfl rfl

/-- From valid unexpired credentials, any number of get_token calls performs
no refresh round trip and leaves the state unchanged. -/
theorem runGetTokenN_valid (c : Creds) (r : Option Creds) (hv : c.valid = true)
    (he : c.expired = false) (n : Nat) :
    runGetTokenN ⟨some c⟩ r n = (⟨some c⟩, 0) := by
  induction n with
  | zero => rfl
  | succ n ih => simp [runGetTokenN, get_token, hv, he, ih]

/-- C3: starting from stored credentials that are invalid or expired (cached
token absent or stale), N get_token callers perform exactly one refresh round
trip in total when the refresh installs valid unexpired credentials.
get_token has no await point, so under the single-threaded asyncio event loop
that runs the handlers, concurrent callers execute it atomically one after
another: a sequence of N calls is the faithful interleaving model of N
concurrent callers, and no duplicate refresh or inconsistent cached state can
arise. -/
theorem get_token_single_flight (c c2 : Creds) (n : Nat)
    (hstale : c.valid = false ∨ c.expired = true)
    (hv : c2.valid = true) (he : c2.expired = false) (hn : 1 ≤ n) :
    (runGetTokenN ⟨some c⟩ (some c2) n).2 = 1 := by
  obtain ⟨m, rfl⟩ : ∃ m, n = m + 1 := ⟨n - 1, (Nat.succ_pred_eq_of_pos hn).symm⟩
  have h1 : get_token ⟨some c⟩ (some c2) = ⟨.token c2.token, ⟨some c2⟩, 1⟩ := by
    rcases c with ⟨v, e, t⟩
    rcases hstale with h | h <;> cases v <;> simp_all [get_token]
  simp [runGetTokenN, h1, runGetTokenN_valid c2 (some c2) hv he m]

/-- Witness for C3: three callers observing an expired token trigger exactly
one refresh round trip. -/
theorem get_token_single_flight_witness :
    (runGetTokenN ⟨some ⟨false, true, "old"⟩⟩ (some ⟨true, false, "new"⟩) 3).2 = 1 :=
  get_token_single_flight ⟨false, true, "old"⟩ ⟨true, false, "new"⟩ 3
    (Or.inl rfl) rfl rfl (by decide)

/-- C7: when the refresh round trip fails, get_token surfaces refreshFailed,
the previously cached stale credentials are left in place (state is not
corrupted), and the next get_token call attempts the refresh round trip
again. -/
theorem get_token_refresh_failure (c : Creds)
    (hstale : c.valid = false ∨ c.expired = true) :
    (get_token ⟨some c⟩ none).result = .error .refreshFailed
  ∧ (get_token ⟨some c⟩ none).manager = ⟨some c⟩
  ∧ (get_token ((get_token ⟨some c⟩ none).manager) none).refreshCalls = 1 := by
  rcases c with ⟨v, e, t⟩
  rcases hstale with h | h <;> cases v <;> simp_all [get_token]

/-- Witness for C7: a failed refresh of an expired token surfaces the error
and keeps the old credentials. -/
theorem get_token_refresh_failure_witness :
    (get_token ⟨some ⟨false, true, "old"⟩⟩ none).result = .error .refreshFailed :=
  (get_token_refresh_failure ⟨false, true, "old"⟩ (Or.inl rfl)).1

/-- C2: every failure before the forwarding stage is handled locally with its
mapped status and without issuing the upstream POST: an authentication
failure returns the auth error having triggered neither a token fetch
(manager untouched, no refresh round trip) nor an upstream call; a
syntactically invalid JSON body returns 400 with no upstream call; a token
acquisition failure returns 500 with no upstream call. -/
theorem prestage_failures_no_upstream (cfg : ProxyConfig) (mn : String)
    (hdr : Option String) (body : String) (m : AuthManager)
    (r : Option Creds) (upstream : String → String → String → UpstreamResult)
    (s : Nat) (d k : String) (e : TokenError) (payload : JVal) :
    (verify_api_key hdr = .httpError s d →
      proxy_vertex_predict cfg mn hdr body m r upstream
        = ⟨.httpError s d, m, false, 0, [.auth]⟩)
  ∧ (verify_api_key hdr = .ok k → loads body = none →
      proxy_vertex_predict cfg mn hdr body m r upstream
        = ⟨.httpError 400 "Invalid JSON body", m, false, 0, [.auth, .parseBody]⟩)
  ∧ (verify_api_key hdr = .ok k → loads body = some payload →
      (get_token m r).result = .error e →
      (proxy_vertex_predict cfg mn hdr body m r upstream).result
          = .httpError 500 "Internal Server Error: GCP Auth Failed"
        ∧ (proxy_vertex_predict cfg mn hdr body m r upstream).upstreamCalled
          = false) := by
  refine ⟨?_, ?_, ?_⟩
  · intro hv
    simp [proxy_vertex_predict, hv]
  · intro hv hb
    simp [proxy_vertex_predict, hv, hb]
  · intro hv hb he
    constructor <;> simp [proxy_vertex_predict, hv, hb, he]

/-- Witness for C2: a syntactically invalid body from an authenticated caller
is answered 400 with no upstream call and no refresh round trip. -/
theorem prestage_failures_no_upstream_witness :
    proxy_vertex_predict defaultConfig ("gemini-test")
        (some ("Bearer sk-client-veo-001")) ("\x7bbad json") ⟨none⟩ none stubUpstream
      = ⟨.httpError 400 "Invalid JSON body", ⟨none⟩, false, 0, [.auth, .parseBody]⟩ :=
  ((prestage_failures_no_upstream defaultConfig "gemini-test"
      (some ("Bearer sk-client-veo-001")) "\x7bbad json" ⟨none⟩ none stubUpstream
      401 "x" "sk-client-veo-001" .credentialsUnavailable .jnull).2.1) rfl rfl

/-- C4: an absent key source leaves the manager in the degraded state
creds = none (a warning only, no crash); every subsequent get_token call
fails with credentialsUnavailable and performs no refresh round trip; and a
request from an authenticated caller with a well-formed JSON body in this
state receives status 500 with no upstream call issued. -/
theorem degraded_manager (loaded : Creds) (r : Option Creds) (cfg : ProxyConfig)
    (mn body : String) (hdr : Option String) (k : String) (payload : JVal)
    (upstream : String → String → String → UpstreamResult)
    (hauth : verify_api_key hdr = .ok k) (hbody : loads body = some payload) :
    initGoogleAuthManager false loaded = ⟨none⟩
  ∧ get_token (initGoogleAuthManager false loaded) r
      = ⟨.error .credentialsUnavailable, ⟨none⟩, 0⟩
  ∧ (proxy_vertex_predict cfg mn hdr body
        (initGoogleAuthManager false loaded) r upstream).result
      = .httpError 500 "Internal Server Error: GCP Auth Failed"
  ∧ (proxy_vertex_predict cfg mn hdr body
        (initGoogleAuthManager false loaded) r upstream).upstreamCalled
      = false := by
  refine ⟨rfl, rfl, ?_, ?_⟩ <;>
    simp [proxy_vertex_predict, hauth, hbody, initGoogleAuthManager, get_token]

/-- Witness for C4: the degraded manager answers a valid request with 500. -/
theorem degraded_manager_witness :
    (proxy_vertex_predict defaultConfig ("gemini-test")
        (some ("Bearer sk-client-veo-001")) ("1")
        (initGoogleAuthManager false ⟨true, false, "x"⟩) none stubUpstream).result
      = .httpError 500 "Internal Server Error: GCP Auth Failed" :=
  (degraded_manager ⟨true, false, "x"⟩ none defaultConfig "gemini-test" "1"
      (some ("Bearer sk-client-veo-001")) "sk-client-veo-001" (.jnum 1)
      stubUpstream rfl rfl).2.2.1

/-- C1 is false as stated: an upstream 200 response whose body is " 1" is
relayed re-serialised as "1" - same status, JSON-equivalent body, but not
byte-identical to the upstream body. -/
theorem passthrough_not_byte_identical :
    (proxy_vertex_predict defaultConfig ("gemini-test")
        (some ("Bearer sk-client-veo-001")) ("1")
        ⟨some ⟨true, false, "tok"⟩⟩ none
        (fun _ _ _ => .response 200 (" 1"))).result = .jsonResponse 200 "1"
  ∧ "1" ≠ " 1" := ⟨rfl, by decide⟩

/-- C1 amended: every upstream response whose body parses as JSON is relayed
with the same status code - in particular 200, 429 and 500 upstream statuses
reach the client unchanged, never translated to 502 - and with the compact
JSON re-serialisation of the parsed upstream body: a body JSON-equivalent to
the upstream one, though not necessarily byte-identical. -/
theorem passthrough_status_and_json_body (cfg : ProxyConfig) (mn : String)
    (hdr : Option String) (body : String) (m : AuthManager) (r : Option Creds)
    (st : Nat) (ubody k t : String) (payload v : JVal)
    (hauth : verify_api_key hdr = .ok k)
    (hbody : loads body = some payload)
    (htok : (get_token m r).result = .token t)
    (hup : loads ubody = some v) :
    (proxy_vertex_predict cfg mn hdr body m r
        (fun _ _ _ => .response st ubody)).result = .jsonResponse st (dumps v) := by
  simp [proxy_vertex_predict, hauth, hbody, htok, hup]

/-- Witness for C1 (amended): an upstream 429 with a JSON body reaches the
client as 429 with the re-serialised body. -/
theorem passthrough_status_and_json_body_witness :
    (proxy_vertex_predict defaultConfig ("gemini-test")
        (some ("Bearer sk-client-veo-001")) ("1")
        ⟨some ⟨true, false, "tok"⟩⟩ none
        (fun _ _ _ => .response 429 ("[1, 2]"))).result
      = .jsonResponse 429 "[1,2]" :=
  passthrough_status_and_json_body defaultConfig "gemini-test"
    (some ("Bearer sk-client-veo-001")) "1" ⟨some ⟨true, false, "tok"⟩⟩ none
    429 "[1, 2]" "sk-client-veo-001" "tok" (.jnum 1) (.jarr [.jnum 1, .jnum 2])
    rfl rfl rfl rfl

/-- C9: the relay step parses the upstream response body as JSON and returns
its re-serialisation, and an upstream response whose body is not valid JSON
is not relayed at all, at any status: response.json() raises and the handler
ends in an unhandled error instead of a passthrough. -/
theorem relay_reparses_and_crashes (cfg : ProxyConfig) (mn : String)
    (hdr : Option String) (body : String) (m : AuthManager) (r : Option Creds)
    (st : Nat) (ubody k t : String) (payload v : JVal)
    (hauth : verify_api_key hdr = .ok k)
    (hbody : loads body = some payload)
    (htok : (get_token m r).result = .token t) :
    (loads ubody = some v →
      (proxy_vertex_predict cfg mn hdr body m r
          (fun _ _ _ => .response st ubody)).result = .jsonResponse st (dumps v))
  ∧ (loads ubody = none →
      (proxy_vertex_predict cfg mn hdr body m r
          (fun _ _ _ => .response st ubody)).result = .unhandledError) := by
  constructor <;> intro hup <;> simp [proxy_vertex_predict, hauth, hbody, htok, hup]

/-- Witness for C9: a 200 upstream response with the non-JSON body not json
ends in an unhandled error, not a passthrough. -/
theorem relay_reparses_and_crashes_witness :
    (proxy_vertex_predict defaultConfig ("gemini-test")
        (some ("Bearer sk-client-veo-001")) ("1")
        ⟨some ⟨true, false, "tok"⟩⟩ none
        (fun _ _ _ => .response 200 ("not json"))).result = .unhandledError :=
  (relay_reparses_and_crashes defaultConfig "gemini-test"
      (some ("Bearer sk-client-veo-001")) "1" ⟨some ⟨true, false, "tok"⟩⟩ none
      200 "not json" "sk-client-veo-001" "tok" (.jnum 1) .jnull
      rfl rfl rfl).2 rfl

/-- C8 is false as stated: the handler builds the upstream target URL before
fetching the token. On a request whose token fetch fails, the trace is auth,
parseBody, buildTarget, fetchToken: the buildTarget stage has already run,
although under the claimed order - fetch token before build target, any
failure short-circuiting the remaining stages - it could not have. -/
theorem stage_order_counterexample :
    (proxy_vertex_predict defaultConfig ("gemini-test")
        (some ("Bearer sk-client-veo-001")) ("1") ⟨none⟩ none stubUpstream).trace
      = [.auth, .parseBody, .buildTarget, .fetchToken]
  ∧ (proxy_vertex_predict defaultConfig ("gemini-test")
        (some ("Bearer sk-client-veo-001")) ("1") ⟨none⟩ none stubUpstream).result
      = .httpError 500 "Internal Server Error: GCP Auth Failed" := ⟨rfl, rfl⟩

/-- C8 amended: the stages run in the order authenticate, parse body, build
target, fetch token, forward, relay; any stage's failure short-circuits the
remaining stages, so every request's trace is a prefix of that order, and the
upstream POST is issued exactly when the forward stage is reached. -/
theorem stage_order_amended (cfg : ProxyConfig) (mn : String)
    (hdr : Option String) (body : String) (m : AuthManager) (r : Option Creds)
    (upstream : String → String → String → UpstreamResult) :
    (proxy_vertex_predict cfg mn hdr body m r upstream).trace
        <+: [Stage.auth, .parseBody, .buildTarget, .fetchToken, .forward, .relay]
  ∧ ((proxy_vertex_predict cfg mn hdr body m r upstream).upstreamCalled = true
      ↔ Stage.forward ∈ (proxy_vertex_predict cfg mn hdr body m r upstream).trace) := by
  rcases hv : verify_api_key hdr with ⟨s, d⟩ | k
  · simp only [proxy_vertex_predict, hv]
    decide
  · rcases hb : loads body with _ | payload
    · simp only [proxy_vertex_predict, hv, hb]
      decide
    · rcases ht : (get_token m r).result with t | e
      · rcases hu : upstream (buildGoogleUrl cfg mn) (dumps payload) t
          with msg | ⟨st, ub⟩
        · simp only [proxy_vertex_predict, hv, hb, ht, hu]
          decide
        · rcases hb2 : loads ub with _ | v <;>
            · simp only [proxy_vertex_predict, hv, hb, ht, hu, hb2]
              decide
      · simp only [proxy_vertex_predict, hv, hb, ht]
        decide
